import Mathlib

/-!
Verification development for `rfc_stats.py` (nemobis/wikimedia-rfc-stats).

The Python program extracts vote records from the sections of a MediaWiki
RFC page and enriches each vote with data about its author.  This file is a
shallow embedding of the program's extraction and identity-resolution core:

* `Vote.parse_username` models the regular-expression search
  `re.search(r'[^@]\[\[User(?:_talk)?:([^|\]]+)', line)` together with the
  `HTMLParser.unescape` post-processing;
* `Vote.filter_vote_lines` models the generator filtering lines against
  `re.match(r'#[^#*:]', line)`;
* `User.load_data`, `User.data_is_global`, `GlobalUser.from_globaluserinfo`
  and `GlobalUser.load_data` model identity resolution, with the MediaWiki
  API responses supplied as explicit data (the HTTP transport is an external
  collaborator of the program);
* `VotePage.get_votes` models the extraction generator, instrumented with
  the list of section ids for which section text was fetched, so that the
  laziness of the iteration is observable in the model;
* the `to_dict` family models Python's aliasing of `self.__dict__`
  (`to_dict` returns the object's own attribute dictionary after mutating
  it), which is what makes serialization observable as a state change.

Machine integers do not occur (Python ints are unbounded; edit counts and
timestamps are modelled as `Nat`).  Python exceptions are modelled with
`Except PyError`.
-/

namespace RfcStats

/-- Python exceptions that the modelled code paths can raise.
`noSuchUser` models the program's own `NoSuchUserException`; the others
model built-in exception classes raised by dictionary/list access, by
attribute access, by iteration over `None`, and by the wikitools HTTP
transport respectively. -/
inductive PyError where
  | noSuchUser (username : String)
  | indexError
  | keyError
  | attributeError
  | typeError
  | valueError
  | transportError
  deriving DecidableEq, Repr

/-! ## Signature parsing: the username regular expression

`Vote.parse_username` runs
`re.search(r'[^@]\[\[User(?:_talk)?:([^|\]]+)', line)`.
We model the anchored part of the pattern (`linkMatch` below: the literal
`[[User:` or `[[User_talk:` followed by the capture group `[^|\]]+`, which
is greedy and maximal because nothing follows it in the pattern) and the
left-to-right search, whose tried start positions each consume one
character matching `[^@]` before the link. -/

/-- The capture group `([^|\]]+)`: the maximal nonempty run of characters
other than `|` and `]`.  Returns `none` when the run is empty (the group
requires at least one character). -/
def takeLinkName (cs : List Char) : Option (List Char) :=
  let g := cs.takeWhile (fun c => !(c == '|') && !(c == ']'))
  if g.isEmpty then none else some g

/-- Anchored match of `\[\[User(?:_talk)?:([^|\]]+)` at the head of `cs`,
returning the capture group.  The two alternatives of `(?:_talk)?` are
mutually exclusive on the character following `User`, so no backtracking
beyond this case split occurs. -/
def linkMatch : List Char → Option (List Char)
  | '[' :: '[' :: 'U' :: 's' :: 'e' :: 'r' :: ':' :: rest => takeLinkName rest
  | '[' :: '[' :: 'U' :: 's' :: 'e' :: 'r' :: '_' :: 't' :: 'a' :: 'l' :: 'k' :: ':' :: rest =>
      takeLinkName rest
  | _ => none

/-- Left-to-right search for `[^@]\[\[User(?:_talk)?:([^|\]]+)`: at each
start position the regex engine first consumes one character that is not
`@`, then the link pattern must match.  Consequently a link can only be
found from the second character of the line onwards. -/
def searchUserLink : List Char → Option (List Char)
  | [] => none
  | c :: rest =>
    if c == '@' then searchUserLink rest
    else
      match linkMatch rest with
      | some g => some g
      | none => searchUserLink rest

/-- Test on the previous character of a candidate position: the regex class
`[^@]` accepts any character other than `@`, and demands that a previous
character exists. -/
def prevOk : Option Char → Bool
  | some c => !(c == '@')
  | none => false

/-- Position `i` of `line` carries a signature link in the sense of the
implemented regular expression: `i ≥ 1`, the character at `i - 1` is not
`@`, and the link pattern matches at `i`. -/
def sigIdxOk (line : List Char) (i : Nat) : Bool :=
  decide (1 ≤ i) && prevOk (line.get? (i - 1)) && (linkMatch (line.drop i)).isSome

/-- Scan positions `i, i+1, ...` (with `fuel` positions remaining) for the
first one satisfying `sigIdxOk`, returning that position's capture. -/
def specScanFrom (line : List Char) : Nat → Nat → Option (List Char)
  | _, 0 => none
  | i, fuel + 1 =>
    if sigIdxOk line i then linkMatch (line.drop i)
    else specScanFrom line (i + 1) fuel

/-- Position-indexed description of the search implemented by the code:
the capture of the first position `i ≥ 1` whose preceding character is not
`@` and at which the link pattern matches. -/
def specCorrectIdx (line : List Char) : Option (List Char) :=
  specScanFrom line 1 line.length

/-- Position test following the words of claim C7: an occurrence of a user
link that is "not immediately preceded by the mention marker `@`" — a
link at position `0` has no preceding character, hence is not preceded
by `@`. -/
def claimIdxOk (line : List Char) (i : Nat) : Bool :=
  (decide (i = 0) || prevOk (line.get? (i - 1))) && (linkMatch (line.drop i)).isSome

/-- Scan for `claimIdxOk` positions, from `i` with `fuel` positions left. -/
def claimScanFrom (line : List Char) : Nat → Nat → Option (List Char)
  | _, 0 => none
  | i, fuel + 1 =>
    if claimIdxOk line i then linkMatch (line.drop i)
    else claimScanFrom line (i + 1) fuel

/-- Definition following the words of claim C7: the capture of the first
user-link occurrence not immediately preceded by `@`, position `0`
included. -/
def claimFirstLink (line : List Char) : Option (List Char) :=
  claimScanFrom line 0 (line.length + 1)

/-! ## HTML unescaping

`parse_username` post-processes the captured username with
`HTMLParser.HTMLParser().unescape` from the Python 2 standard library
(external to the repository).  That routine returns the string unchanged
when it contains no `&`, and otherwise substitutes entity references
matching `&(#?[xX]?(?:[0-9a-fA-F]+|\w{1,8}));`, decoding numeric
references and looking named ones up in the HTML entity table.  We model
the scan-and-substitute structure exactly, decode numeric references, and
carry the common named entities; the full 252-entry table and the
behaviour on out-of-range code points are not reproduced (no claim under
verification involves entity decoding — for all inputs appearing in the
claims the function is the identity because they contain no `&`). -/

/-- Word characters accepted by `\w` (ASCII letters, digits, underscore). -/
def isWordChar (c : Char) : Bool := c.isAlphanum || c == '_'

/-- Hexadecimal digit test for `[0-9a-fA-F]`. -/
def isHexChar (c : Char) : Bool :=
  c.isDigit || ('a' ≤ c && c ≤ 'f') || ('A' ≤ c && c ≤ 'F')

/-- Value of one hexadecimal digit. -/
def hexDigitVal (c : Char) : Nat :=
  if c.isDigit then c.toNat - 48 else if 'a' ≤ c then c.toNat - 87 else c.toNat - 55

/-- Numeric value of a hexadecimal digit string. -/
def fromHex (ds : List Char) : Nat := ds.foldl (fun a c => a * 16 + hexDigitVal c) 0

/-- Numeric value of a decimal digit string. -/
def fromDec (ds : List Char) : Nat := ds.foldl (fun a c => a * 10 + (c.toNat - 48)) 0

/-- Named-entity lookup (restricted table, see the section comment). -/
def namedEntity : List Char → Option (List Char)
  | ['a', 'm', 'p'] => some ['&']
  | ['l', 't'] => some ['<']
  | ['g', 't'] => some ['>']
  | ['q', 'u', 'o', 't'] => some ['"']
  | ['a', 'p', 'o', 's'] => some ['\'']
  | ['n', 'b', 's', 'p'] => some [Char.ofNat 160]
  | _ => none

/-- Hexadecimal numeric reference `&#xHH;` after the `x`: digits then `;`. -/
def hexEntity (rest : List Char) : Option (List Char × List Char) :=
  let ds := rest.takeWhile isHexChar
  if ds.isEmpty then none
  else
    match rest.drop ds.length with
    | ';' :: rest' => some ([Char.ofNat (fromHex ds)], rest')
    | _ => none

/-- Parse one entity reference immediately after a `&`, returning the
replacement text and the remaining input. -/
def parseEntity : List Char → Option (List Char × List Char)
  | '#' :: 'x' :: rest => hexEntity rest
  | '#' :: 'X' :: rest => hexEntity rest
  | '#' :: rest =>
    let ds := rest.takeWhile Char.isDigit
    if ds.isEmpty then none
    else
      match rest.drop ds.length with
      | ';' :: rest' => some ([Char.ofNat (fromDec ds)], rest')
      | _ => none
  | cs =>
    let w := cs.takeWhile isWordChar
    if w.isEmpty || decide (8 < w.length) then none
    else
      match cs.drop w.length with
      | ';' :: rest' =>
        (match namedEntity w with
         | some repl => some (repl, rest')
         | none => some ('&' :: (w ++ [';']), rest'))
      | _ => none

/-- Substitution scan: each step consumes at least one character, so the
input length is sufficient fuel. -/
def unescapeGo : Nat → List Char → List Char
  | 0, cs => cs
  | _ + 1, [] => []
  | fuel + 1, '&' :: rest =>
    (match parseEntity rest with
     | some (repl, rest') => repl ++ unescapeGo fuel rest'
     | none => '&' :: unescapeGo fuel rest)
  | fuel + 1, c :: rest => c :: unescapeGo fuel rest

/-- Model of `HTMLParser.unescape`: identity when no `&` occurs, entity
substitution otherwise. -/
def htmlUnescapeL (s : List Char) : List Char :=
  if s.contains '&' then unescapeGo s.length s else s

/-- Model of `Vote.parse_username`: search for the first signature-shaped
user-page or user-talk-page link (see `searchUserLink`) and decode the
captured username from its HTML-escaped form.  Returns `none` when the
pattern does not occur (`re.search` returning `None` makes the function
fall through and return `None`). -/
def Vote.parse_username (line : List Char) : Option (List Char) :=
  match searchUserLink line with
  | some username => some (htmlUnescapeL username)
  | none => none

/-! ## Line filtering -/

/-- Model of `re.match(r'#[^#*:]', line)` used by `filter_vote_lines`:
the line must start with `#` and its second character must exist and not
be `#`, `*` or `:`. -/
def matchTopLevel (line : String) : Bool :=
  match line.data with
  | c₁ :: c₂ :: _ => c₁ == '#' && !(c₂ == '#' || c₂ == '*' || c₂ == ':')
  | _ => false

/-- Model of the generator `Vote.filter_vote_lines`: yield, in order, the
lines that look like top-level ordered-list items. -/
def Vote.filter_vote_lines : List String → List String
  | [] => []
  | line :: rest =>
    if matchTopLevel line then line :: Vote.filter_vote_lines rest
    else Vote.filter_vote_lines rest

/-- Candidate-line predicate in the words of claim C6: the first character
is the list marker `#` and the second character exists and is not one of
the excluded markers `#`, `*`, `:`. -/
def specCandidate (line : String) : Bool :=
  (line.data.get? 0 == some '#') &&
    (match line.data.get? 1 with
     | some c => !(c == '#') && !(c == '*') && !(c == ':')
     | none => false)

/-! ## Data model

API responses are modelled as explicit records: the program's only use of
the transport is `Api.call`, whose parsed JSON is accessed by key, and the
spec treats the transport as an external collaborator.  Optional fields of
profile objects are `Option`-valued, `none` corresponding to Python's
`None` (every attribute is initialized to `None` in `__init__`). -/

/-- One entry of `globaluserinfo['merged']`: the db name and URL of a wiki
where the account is attached. -/
structure MergedAccount where
  wiki : String
  url : String
  deriving DecidableEq, Repr

/-- The `globaluserinfo` part of the batched user query.  `merged = none`
models the `merged` key being absent from the response dictionary. -/
structure GlobalInfo where
  home : String := ""
  editcount : Nat := 0
  merged : Option (List MergedAccount) := none
  deriving DecidableEq, Repr

/-- One entry of the `users` list of the batched user query.  `missing` and
`invalid` model the presence of the corresponding marker keys; the data
keys are only read after both markers have been checked. -/
structure LocalUserRecord where
  missing : Bool := false
  invalid : Bool := false
  groups : List String := []
  editcount : Nat := 0
  deriving DecidableEq, Repr

/-- The `['query']` part of the response to the batched query issued by
`User.load_data` (`list=users|usercontribs`, `meta=globaluserinfo`).
`usercontribs` holds contribution timestamps; the query uses
`ucdir='newer', uclimit=1`, so its first element is the account's earliest
local contribution. -/
structure UserQueryResponse where
  users : List LocalUserRecord := []
  usercontribs : List Nat := []
  globaluserinfo : GlobalInfo := {}
  deriving DecidableEq, Repr

/-- Outcome of the batched user query for one username: a parsed response,
or a transport/data error raised by the API layer. -/
inductive LookupOutcome where
  | fail
  | response (r : UserQueryResponse)
  deriving DecidableEq, Repr

/-- The `['query']` part of a per-member-site query issued by
`GlobalUser.load_data` (each `users` entry is that user's group list). -/
structure SiteResp where
  users : List (List String) := []
  usercontribs : List Nat := []
  deriving DecidableEq, Repr

/-- Outcome of the per-member-site query of `GlobalUser.load_data`. -/
inductive SiteOutcome where
  | siteFail
  | siteResponse (d : SiteResp)
  deriving DecidableEq, Repr

/-- Cross-wiki profile (`GlobalUser` in the source).  The `wikis` and
`wiki_urls` attributes are modelled with a two-level `Option`: the outer
level records whether the attribute is still present in the object's
`__dict__` (`GlobalUser.to_dict` executes `del self_dict['wikis']` and
`del self_dict['wiki_urls']`), the inner level is the attribute's value
(`none` = Python `None`, as set by `__init__`). -/
structure GlobalUser where
  username : String
  home_wiki : Option String := none
  wikis : Option (Option (List String)) := some none
  wiki_urls : Option (Option (List String)) := some none
  editcount : Option Nat := none
  groups : Option (List String) := none
  first_edit : Option Nat := none
  deriving DecidableEq, Repr

/-- Value of `User.global_user`: `None` (uninitialized), `False` (account
not attached globally), a `GlobalUser` object, or the plain dictionary that
`User.to_dict` writes over the attribute. -/
inductive GlobalSlot where
  | uninit
  | notAttached
  | obj (g : GlobalUser)
  | asDict (g : GlobalUser)
  deriving DecidableEq, Repr

/-- Local account profile (`User` in the source).  The `api` handle of the
Python object is threaded separately through `Env`; all data attributes
start out as `None`, as in `__init__`. -/
structure User where
  username : String
  global_user : GlobalSlot := .uninit
  editcount : Option Nat := none
  groups : Option (List String) := none
  first_edit : Option Nat := none
  deriving DecidableEq, Repr

/-- Value of `Vote.user`: `None`, a `User` object, or the dictionary that
`Vote.to_dict` writes over the attribute. -/
inductive UserSlot where
  | noneV
  | obj (u : User)
  | asDict (u : User)
  deriving DecidableEq, Repr

/-- A single vote (`Vote` in the source).  `local_gap` and `global_gap`
are declared by `__init__` and never assigned afterwards (the inactivity
computation is unfinished in the source), so they stay `none`. -/
structure Vote where
  section_label : String
  text : String
  user : UserSlot := .noneV
  datetime : Option Nat := none
  local_gap : Option Nat := none
  global_gap : Option Nat := none
  deriving DecidableEq, Repr

/-- The program's external collaborators, as one oracle record:
`sectionText` is `Api.get_section_text(...).splitlines()` for a section id
of the configured page/revision; `lookup` is the batched user query of
`User.load_data`; `siteQuery` is the per-member-site query of
`GlobalUser.load_data`, keyed by the member wiki URL; `parseDate` is
`Vote.parse_datetime`, i.e. the configured `date_regexp`/`date_format`
search (configuration and locale are external, §6 of the spec). -/
structure Env where
  sectionText : Nat → List String
  lookup : String → LookupOutcome
  siteQuery : String → SiteOutcome
  parseDate : String → Option Nat

/-- Model of `Vote.parse_datetime`: first match of the configured date
pattern, parsed with the configured format (both supplied externally). -/
def Vote.parse_datetime (env : Env) (line : String) : Option Nat :=
  env.parseDate line

/-! ## Identity resolution -/

/-- Model of `User.data_is_global`: scan `global_data['merged']` (if the
key is present) for an account whose `wiki` is `commonswiki`. -/
def User.data_is_global (gd : GlobalInfo) : Bool :=
  match gd.merged with
  | none => false
  | some accounts => accounts.any (fun a => a.wiki == "commonswiki")

/-- Model of `GlobalUser.from_globaluserinfo`: build a `GlobalUser` from
the federation metadata.  Accessing `global_data['merged']` raises
`KeyError` when the key is absent (the only call site guards this with
`data_is_global`). -/
def GlobalUser.from_globaluserinfo (username : String) (gd : GlobalInfo) :
    Except PyError GlobalUser :=
  match gd.merged with
  | none => .error .keyError
  | some accounts =>
    .ok { username := username
          home_wiki := some gd.home
          editcount := some gd.editcount
          wikis := some (some (accounts.map MergedAccount.wiki))
          wiki_urls := some (some (accounts.map MergedAccount.url))
          groups := none
          first_edit := none }

/-- Model of `User.load_data` on an explicit response (the `data`
parameter).  Mirrors the source's order of evaluation: `users[0]`
(IndexError when empty), the missing/invalid check (raising
`NoSuchUserException`), then `groups`/`editcount`, then
`usercontribs[0]` — an IndexError when the account has no local
contribution, since the access is unguarded — and finally the federation
decision.  The `except: print(...); raise` wrapper re-raises every
exception unchanged, so it adds nothing to the model.  Note that
`self.global_user.load_data()` is commented out in the source: the
constructed `GlobalUser` is returned as `from_globaluserinfo` made it. -/
def User.load_data (u : User) (data : UserQueryResponse) : Except PyError User :=
  match data.users.head? with
  | none => .error .indexError
  | some local_data =>
    if local_data.missing || local_data.invalid then
      .error (.noSuchUser u.username)
    else
      let u1 : User := { u with groups := some local_data.groups
                                editcount := some local_data.editcount }
      match data.usercontribs.head? with
      | none => .error .indexError
      | some first_local_edit =>
        let u2 : User := { u1 with first_edit := some first_local_edit }
        if User.data_is_global data.globaluserinfo then
          match GlobalUser.from_globaluserinfo u.username data.globaluserinfo with
          | .ok g => .ok { u2 with global_user := .obj g }
          | .error e => .error e
        else
          .ok { u2 with global_user := .notAttached }

/-- Model of `User.load_data` with `data=None`: issue the batched query
through the API and resolve from its response. -/
def User.load_data_api (env : Env) (u : User) : Except PyError User :=
  match env.lookup u.username with
  | .fail => .error .transportError
  | .response r => User.load_data u r

/-- Loop body of `GlobalUser.load_data` over the member-site URLs:
per site, extend the group union with `data['users'][0]['groups']`
(IndexError when `users` is empty) and keep the earliest first
contribution (`if not self.first_edit or t < self.first_edit`). -/
def GlobalUser.loadSites (siteQuery : String → SiteOutcome) :
    GlobalUser → List String → Except PyError GlobalUser
  | g, [] => .ok g
  | g, url :: rest =>
    match siteQuery url with
    | .siteFail => .error .transportError
    | .siteResponse d =>
      match d.users.head? with
      | none => .error .indexError
      | some ugroups =>
        let g1 : GlobalUser := { g with groups := some (g.groups.getD [] ++ ugroups) }
        let g2 : GlobalUser :=
          match d.usercontribs.head? with
          | some t =>
            (match g1.first_edit with
             | none => { g1 with first_edit := some t }
             | some f => if t < f then { g1 with first_edit := some t } else g1)
          | none => g1
        GlobalUser.loadSites siteQuery g2 rest

/-- Model of `GlobalUser.load_data`: set `groups` to `[]`, then iterate
`self.wiki_urls` merging per-site groups and earliest contributions.
Iterating over a `None` value raises TypeError; reading a deleted
attribute raises AttributeError.  (This method exists in the source but
its only call site, in `User.load_data`, is commented out.) -/
def GlobalUser.load_data (siteQuery : String → SiteOutcome) (g : GlobalUser) :
    Except PyError GlobalUser :=
  match g.wiki_urls with
  | some (some urls) => GlobalUser.loadSites siteQuery { g with groups := some [] } urls
  | some none => .error .typeError
  | none => .error .attributeError

/-! ## Serialization (`to_dict`)

Python's `to_dict` methods return `self.__dict__` itself — not a copy —
after reassigning or deleting entries in it.  Since the returned
dictionary is the object's attribute dictionary, we model each `to_dict`
as returning the mutated object state (which doubles as the returned
dictionary). -/

/-- Model of `GlobalUser.to_dict`: `del self_dict['wikis']` and
`del self_dict['wiki_urls']` remove the attributes (KeyError when already
deleted); the remaining dictionary is the mutated `__dict__`. -/
def GlobalUser.to_dict (g : GlobalUser) : Except PyError GlobalUser :=
  match g.wikis with
  | none => .error .keyError
  | some _ =>
    match g.wiki_urls with
    | none => .error .keyError
    | some _ => .ok { g with wikis := none, wiki_urls := none }

/-- Model of `User.to_dict`: when `global_user` is truthy it is replaced in
`self.__dict__` by `global_user.to_dict()`.  `None` and `False` are falsy
and leave the object unchanged; a previously written dictionary is
truthy (it is nonempty) but has no `to_dict` method, so a second call
raises AttributeError. -/
def User.to_dict (u : User) : Except PyError User :=
  match u.global_user with
  | .uninit => .ok u
  | .notAttached => .ok u
  | .obj g =>
    (match GlobalUser.to_dict g with
     | .ok g' => .ok { u with global_user := .asDict g' }
     | .error e => .error e)
  | .asDict _ => .error .attributeError

/-- Model of `Vote.to_dict`: when `user` is truthy it is replaced in
`self.__dict__` by `user.to_dict()`; as for `User.to_dict`, a second call
finds a dictionary in the attribute and raises AttributeError. -/
def Vote.to_dict (v : Vote) : Except PyError Vote :=
  match v.user with
  | .noneV => .ok v
  | .obj u =>
    (match User.to_dict u with
     | .ok u' => .ok { v with user := .asDict u' }
     | .error e => .error e)
  | .asDict _ => .error .attributeError

/-! ## Vote construction -/

/-- Model of `Vote.from_line`: build the vote, parse the timestamp, parse
the username; when a username is found, construct a `User` and load its
data, recovering from `NoSuchUserException` by leaving `vote.user = None`
and re-raising every other exception (`except: print(...); raise`). -/
def Vote.from_line (env : Env) (line : String) (section_label : String) :
    Except PyError Vote :=
  let dt := Vote.parse_datetime env line
  match Vote.parse_username line.data with
  | none =>
    .ok { section_label := section_label, text := line, user := .noneV, datetime := dt }
  | some uname =>
    match User.load_data_api env { username := String.mk uname } with
    | .ok u =>
      .ok { section_label := section_label, text := line, user := .obj u, datetime := dt }
    | .error (.noSuchUser _) =>
      .ok { section_label := section_label, text := line, user := .noneV, datetime := dt }
    | .error e => .error e

/-! ## The vote page -/

/-- Comparison key used by `create_ordered_dict`:
`sorted(sections.items(), key=lambda t: t[1])` orders the label→id pairs
by their section id. -/
abbrev keyLE (a b : String × Nat) : Prop := a.2 ≤ b.2

instance : IsTotal (String × Nat) keyLE := ⟨fun a b => Nat.le_total a.2 b.2⟩

instance : IsTrans (String × Nat) keyLE := ⟨fun _ _ _ h h' => Nat.le_trans h h'⟩

/-- Model of `VotePage.create_ordered_dict`: sort the configured
label→id pairs by section id.  Python's `sorted` is stable; insertion
sort is the stable sort available here, so the two agree on every input.
(The configured `sections` is a Python dict, whose iteration order we take
as the order of the input list.) -/
def VotePage.create_ordered_dict (sections : List (String × Nat)) : List (String × Nat) :=
  List.insertionSort keyLE sections

/-- The vote page under analysis: page title or revision id, and the
section registry, already ordered by `create_ordered_dict` (the
constructor applies it). -/
structure VotePage where
  page : Option String := none
  revision : Option Nat := none
  sections : List (String × Nat)

/-- Model of `VotePage.__init__`: requires a nonempty section registry and
one of page/revision, then stores the id-ordered registry. -/
def VotePage.make (page : Option String) (revision : Option Nat)
    (sections : List (String × Nat)) : Except PyError VotePage :=
  if sections.isEmpty || (page.isNone && revision.isNone) then .error .valueError
  else .ok { page := page, revision := revision
             sections := VotePage.create_ordered_dict sections }

/-- The `section` argument of `get_votes` (`int|str`).  The source skips a
section when `section and section_label != section and section_id !=
section`; a falsy argument (`0` or the empty string) disables the filter,
and a comparison across types is always unequal in Python 2. -/
def skipSection : Option (String ⊕ Nat) → String → Nat → Bool
  | none, _, _ => false
  | some (.inl s), lbl, _ => !(s == "") && !(s == lbl)
  | some (.inr n), _, id => !(n == 0) && !(n == id)

/-- Inner loop of `get_votes` over the candidate lines of one section:
`i` is the running vote counter.  Per line: increment `i`, try
`Vote.from_line` — `try: yield ...; except: pass` suppresses any
exception, dropping the line — then `if i == limit: return`.  Returns the
yielded votes, the final counter, and whether the limit stopped the
iteration. -/
def processLines (env : Env) (lbl : String) (limit : Option Nat) :
    Nat → List String → List Vote × Nat × Bool
  | i, [] => ([], i, false)
  | i, line :: rest =>
    let i' := i + 1
    let vs : List Vote :=
      match Vote.from_line env line lbl with
      | .ok v => [v]
      | .error _ => []
    if limit = some i' then (vs, i', true)
    else
      let r := processLines env lbl limit i' rest
      (vs ++ r.1, r.2.1, r.2.2)

/-- Outer loop of `get_votes` over the section registry.  The second
component of the result records, in order, the section ids for which the
section text was fetched (`get_vote_lines` → `get_section_text`), making
the short-circuiting of the iteration observable. -/
def processSections (env : Env) (sectionArg : Option (String ⊕ Nat)) (limit : Option Nat) :
    Nat → List (String × Nat) → List Vote × List Nat
  | _, [] => ([], [])
  | i, (lbl, id) :: rest =>
    if skipSection sectionArg lbl id then processSections env sectionArg limit i rest
    else
      let lines := Vote.filter_vote_lines (env.sectionText id)
      let res := processLines env lbl limit i lines
      if res.2.2 then (res.1, [id])
      else
        let rest' := processSections env sectionArg limit res.2.1 rest
        (res.1 ++ rest'.1, id :: rest'.2)

/-- Model of `VotePage.get_votes`: iterate the ordered section registry,
filter each section's lines, and build votes up to `limit`.  The first
component is the sequence of yielded votes (the source's generator, fully
consumed); the second lists the sections whose text was fetched. -/
def VotePage.get_votes (page : VotePage) (env : Env)
    (sectionArg : Option (String ⊕ Nat)) (limit : Option Nat) :
    List Vote × List Nat :=
  processSections env sectionArg limit 0 page.sections

/-- Votes contributed by one section when no limit interferes: the
successful `from_line` results of its candidate lines, in line order. -/
def sectionVotes (env : Env) (s : String × Nat) : List Vote :=
  (Vote.filter_vote_lines (env.sectionText s.2)).filterMap
    (fun line => (Vote.from_line env line s.1).toOption)

/-- Number of candidate vote lines of one section. -/
def numCandidates (env : Env) (id : Nat) : Nat :=
  (Vote.filter_vote_lines (env.sectionText id)).length

/-- Total number of candidate vote lines over a section list. -/
def totalCandidates (env : Env) (secs : List (String × Nat)) : Nat :=
  (secs.map (fun s => numCandidates env s.2)).sum

/-- The sections `get_votes` must fetch to produce `n ≥ 1` votes: the
shortest prefix of the registry whose candidate lines reach `n`, or the
whole registry when fewer than `n` candidates exist. -/
def minimalFetch (env : Env) : Nat → List (String × Nat) → List Nat
  | _, [] => []
  | n, s :: rest =>
    if n ≤ numCandidates env s.2 then [s.2]
    else s.2 :: minimalFetch env (n - numCandidates env s.2) rest

/-! ## Lemmas about the username search -/

/-- The regex position test is invariant under prepending a character, for
positions beyond the first two. -/
lemma sigIdxOk_cons (c : Char) (line : List Char) (j : Nat) :
    sigIdxOk (c :: line) (j + 2) = sigIdxOk line (j + 1) := by
  simp [sigIdxOk]

/-- Scanning a cons cell from position 2 onwards is scanning the tail from
position 1 onwards. -/
lemma specScanFrom_cons (c : Char) (line : List Char) :
    ∀ fuel j, specScanFrom (c :: line) (j + 2) fuel = specScanFrom line (j + 1) fuel := by
  intro fuel
  induction fuel with
  | zero => intro j; rfl
  | succ n ih =>
    intro j
    simp only [specScanFrom, sigIdxOk_cons, List.drop_succ_cons]
    have : j + 2 + 1 = (j + 1) + 2 := rfl
    rw [this, ih (j + 1)]

/-- The position test at position `1` of a cons cell: the predecessor is
the head and must not be `@`, and the link must match at the tail. -/
lemma sigIdxOk_one (c : Char) (rest : List Char) :
    sigIdxOk (c :: rest) 1 = (!(c == '@') && (linkMatch rest).isSome) := by
  show (true && !(c == '@') && (linkMatch rest).isSome) = _
  simp

/-- The implemented left-to-right regex search agrees with the
position-indexed description: first position `i ≥ 1` with a non-`@`
predecessor where the link pattern matches. -/
lemma searchUserLink_eq_spec : ∀ cs : List Char, searchUserLink cs = specCorrectIdx cs := by
  intro cs
  induction cs with
  | nil => rfl
  | cons c rest ih =>
    have e1 : specScanFrom (c :: rest) (1 + 1) rest.length = specScanFrom rest 1 rest.length :=
      specScanFrom_cons c rest rest.length 0
    have hspec : specCorrectIdx (c :: rest)
        = if (!(c == '@') && (linkMatch rest).isSome) then linkMatch rest
          else specCorrectIdx rest := by
      show specScanFrom (c :: rest) 1 (rest.length + 1) = _
      simp only [specScanFrom, sigIdxOk_one]
      rw [show (c :: rest).drop 1 = rest from rfl, e1]
      rfl
    show (if c == '@' then searchUserLink rest
          else
            match linkMatch rest with
            | some g => some g
            | none => searchUserLink rest) = specCorrectIdx (c :: rest)
    rw [hspec, ih]
    cases hc : (c == '@') with
    | true => simp [hc]
    | false =>
      cases hl : linkMatch rest with
      | none => simp [hc, hl]
      | some g => simp [hc, hl]

/-- `specScanFrom` finds nothing when the link pattern matches at no
position `≥ 1`. -/
lemma specScanFrom_eq_none (line : List Char)
    (h : ∀ j, 1 ≤ j → linkMatch (line.drop j) = none) :
    ∀ fuel i, 1 ≤ i → specScanFrom line i fuel = none := by
  intro fuel
  induction fuel with
  | zero => intro i _; rfl
  | succ n ih =>
    intro i hi
    have hnone : linkMatch (line.drop i) = none := h i hi
    simp only [specScanFrom, sigIdxOk, hnone, Option.isSome_none, Bool.and_false,
      Bool.false_eq_true, if_false]
    exact ih (i + 1) (Nat.le_succ_of_le hi)

/-- The filtering predicate of the source equals the candidate-line
predicate stated by claim C6. -/
lemma matchTopLevel_eq_spec (line : String) : matchTopLevel line = specCandidate line := by
  obtain ⟨l⟩ := line
  match l with
  | [] => rfl
  | [c] => simp [matchTopLevel, specCandidate]
  | c₁ :: c₂ :: rest => simp [matchTopLevel, specCandidate, Bool.not_or, Bool.and_assoc]

/-- The line filter is `List.filter` with the source's predicate. -/
lemma filter_vote_lines_eq_filter :
    ∀ lines : List String, Vote.filter_vote_lines lines = lines.filter matchTopLevel := by
  intro lines
  induction lines with
  | nil => rfl
  | cons l ls ih =>
    cases hm : matchTopLevel l <;>
      simp [Vote.filter_vote_lines, List.filter_cons, hm, ih]

/-! ## Claim C6 -/

/-- C6: `filter_vote_lines` yields exactly the subsequence (in order, with
lines unmodified) of lines whose first character is `#` and whose second
character is not one of `#`, `*`, `:`; `"#Support ~~~~"` is kept while
`"##reply"` and `"#:indented"` are dropped, and the empty input yields the
empty output. -/
theorem C6_filter_vote_lines :
    (∀ lines : List String, Vote.filter_vote_lines lines = lines.filter specCandidate) ∧
    (∀ lines : List String, (Vote.filter_vote_lines lines).Sublist lines) ∧
    Vote.filter_vote_lines ["#Support ~~~~", "##reply", "#:indented"] = ["#Support ~~~~"] ∧
    Vote.filter_vote_lines ([] : List String) = [] := by
  have hfil : ∀ lines : List String,
      Vote.filter_vote_lines lines = lines.filter specCandidate := by
    intro lines
    rw [filter_vote_lines_eq_filter]
    exact List.filter_congr (fun l _ => matchTopLevel_eq_spec l)
  refine ⟨hfil, fun lines => ?_, rfl, rfl⟩
  rw [hfil]
  exact List.filter_sublist lines

/-! ## Claim C7 -/

/-- C7 counterexample: on the line `"[[User:A]]"` the first user link is
not immediately preceded by `@` (it has no preceding character at all), so
the claim's reading returns `"A"`, but `parse_username` returns `none`
because the implemented pattern consumes one character before the link. -/
theorem C7_cex :
    claimFirstLink ("[[User:A]]".data) = some ("A".data) ∧
    Vote.parse_username ("[[User:A]]".data) = none := ⟨rfl, rfl⟩

/-- C7 (amended): `parse_username` returns, HTML-unescaped, the capture of
the first user-page or user-talk-page link occurring at a position `i ≥ 1`
whose preceding character is not the mention marker `@` (a link at the very
start of the line is never matched); on
`"#Oppose --[[User:Alice|Alice]] 01:02, 3 April 2024 (UTC)"` it returns
`"Alice"`, on `"#See @[[User:Bob]]"` it returns `none`, and whenever no
such occurrence exists it returns `none` rather than failing. -/
theorem C7_parse_username :
    (∀ line : List Char,
      Vote.parse_username line = (specCorrectIdx line).map htmlUnescapeL) ∧
    Vote.parse_username ("#Oppose --[[User:Alice|Alice]] 01:02, 3 April 2024 (UTC)".data)
      = some ("Alice".data) ∧
    Vote.parse_username ("#See @[[User:Bob]]".data) = none := by
  refine ⟨fun line => ?_, rfl, rfl⟩
  unfold Vote.parse_username
  rw [searchUserLink_eq_spec]
  cases specCorrectIdx line <;> simp

/-! ## Claim C10 -/

/-- C10 counterexample: the line `"[[User:A]] [[User:B]]"` starts with a
user link at its very first character, yet `parse_username` does not
return `none`: it skips the unmatched line-start link and extracts the
later one. -/
theorem C10_cex :
    Vote.parse_username ("[[User:A]] [[User:B]]".data) = some ("B".data) ∧
    ("[[User:A]] [[User:B]]".data).take 7 = "[[User:".data := ⟨rfl, rfl⟩

/-- C10 (amended): a link beginning at position `0` of the line is never
the one matched — the pattern requires a preceding character — so whenever
the link pattern matches at no position `i ≥ 1` (in particular when the
line's only user link starts the line), `parse_username` returns `none`. -/
theorem C10_line_start_link :
    ∀ line : List Char,
      (∀ i, i < line.length → 1 ≤ i → linkMatch (line.drop i) = none) →
      Vote.parse_username line = none := by
  intro line h
  have hall : ∀ j, 1 ≤ j → linkMatch (line.drop j) = none := by
    intro j hj
    by_cases hlt : j < line.length
    · exact h j hlt hj
    · rw [List.drop_of_length_le (Nat.le_of_not_lt hlt)]
      rfl
  unfold Vote.parse_username
  rw [searchUserLink_eq_spec]
  unfold specCorrectIdx
  rw [specScanFrom_eq_none line hall line.length 1 (Nat.le_refl 1)]

/-- C10 witness: the single-link line `"[[User_talk:Zed]]"` satisfies the
hypothesis (no link occurrence at any position `≥ 1`) and parsing yields
`none`. -/
theorem C10_witness :
    Vote.parse_username ("[[User_talk:Zed]]".data) = none :=
  C10_line_start_link ("[[User_talk:Zed]]".data) (by decide)

/-! ## Lemmas about identity resolution -/

/-- Characterization of `User.data_is_global`: federation metadata exists
and its merged list contains the anchor site `commonswiki`. -/
lemma data_is_global_iff (gd : GlobalInfo) :
    User.data_is_global gd = true ↔
      ∃ accounts, gd.merged = some accounts ∧ ∃ a ∈ accounts, a.wiki = "commonswiki" := by
  unfold User.data_is_global
  cases hm : gd.merged with
  | none => simp
  | some accounts => simp [List.any_eq_true]

/-- Shape of every successful `User.load_data` result: the response had a
first user record, neither missing nor invalid, and a first contribution;
the profile carries that record's data; and the global slot is either the
`GlobalUser` built by `from_globaluserinfo` (when the anchor site occurs
in the merge list) or `False`. -/
lemma load_data_ok_shape (u : User) (r : UserQueryResponse) (u' : User)
    (h : User.load_data u r = .ok u') :
    ∃ rec rest t, r.users = rec :: rest ∧ rec.missing = false ∧ rec.invalid = false ∧
      r.usercontribs.head? = some t ∧
      u'.username = u.username ∧
      u'.editcount = some rec.editcount ∧ u'.groups = some rec.groups ∧
      u'.first_edit = some t ∧
      ((User.data_is_global r.globaluserinfo = true ∧
        ∃ accounts, r.globaluserinfo.merged = some accounts ∧
          u'.global_user = .obj
            { username := u.username
              home_wiki := some r.globaluserinfo.home
              wikis := some (some (accounts.map MergedAccount.wiki))
              wiki_urls := some (some (accounts.map MergedAccount.url))
              editcount := some r.globaluserinfo.editcount
              groups := none
              first_edit := none }) ∨
       (User.data_is_global r.globaluserinfo = false ∧ u'.global_user = .notAttached)) := by
  unfold User.load_data at h
  cases hu : r.users with
  | nil => rw [hu] at h; simp at h
  | cons rec rest =>
    rw [hu] at h
    simp only [List.head?_cons] at h
    by_cases hmv : (rec.missing || rec.invalid) = true
    · rw [if_pos hmv] at h; simp at h
    · rw [if_neg hmv] at h
      rw [Bool.or_eq_true, not_or, Bool.not_eq_true, Bool.not_eq_true] at hmv
      cases hc : r.usercontribs with
      | nil => rw [hc] at h; simp at h
      | cons t ts =>
        rw [hc] at h
        simp only [List.head?_cons] at h
        refine ⟨rec, rest, t, rfl, hmv.1, hmv.2, rfl, ?_⟩
        by_cases hg : User.data_is_global r.globaluserinfo = true
        · rw [if_pos hg] at h
          obtain ⟨accounts, hacc, -⟩ := (data_is_global_iff _).mp hg
          unfold GlobalUser.from_globaluserinfo at h
          rw [hacc] at h
          simp only [Except.ok.injEq] at h
          subst h
          exact ⟨rfl, rfl, rfl, rfl, Or.inl ⟨hg, accounts, hacc, rfl⟩⟩
        · rw [if_neg hg] at h
          simp only [Except.ok.injEq] at h
          subst h
          exact ⟨rfl, rfl, rfl, rfl,
            Or.inr ⟨Bool.not_eq_true _ ▸ eq_false_of_ne_true hg, rfl⟩⟩

/-! ## Concrete fixtures

A valid, federated response shared by several concrete instantiations:
the account exists, has groups `["sysop"]`, local edit count `10`, first
local contribution at time `4`, and is merged on `enwiki` and on the
anchor site `commonswiki`. -/

/-- Fixture: a batched-query response for a valid federated account. -/
def rFed : UserQueryResponse :=
  { users := [{ groups := ["sysop"], editcount := 10 }]
    usercontribs := [4]
    globaluserinfo :=
      { home := "enwiki", editcount := 50
        merged := some [⟨"enwiki", "https://en"⟩, ⟨"commonswiki", "https://commons"⟩] } }

/-- Fixture: the `GlobalUser` that `from_globaluserinfo` builds from
`rFed` for a given username. -/
def globalProfileOf (name : String) : GlobalUser :=
  { username := name, home_wiki := some "enwiki"
    wikis := some (some ["enwiki", "commonswiki"])
    wiki_urls := some (some ["https://en", "https://commons"])
    editcount := some 50, groups := none, first_edit := none }

/-- Fixture: the `User` that `load_data` returns from `rFed`. -/
def resolvedOf (name : String) : User :=
  { username := name, global_user := .obj (globalProfileOf name)
    editcount := some 10, groups := some ["sysop"], first_edit := some 4 }

/-! ## Claim C4 -/

/-- C4: a successfully resolved profile is marked federated (its
`global_user` holds a `GlobalUser` object rather than `False`) if and only
if the anchor site `commonswiki` occurs in the `merged` member list of the
federation metadata; merge data without the anchor site yields a
not-federated profile even when other member sites are present. -/
theorem C4_federation_iff (u : User) (r : UserQueryResponse) (u' : User)
    (h : User.load_data u r = .ok u') :
    (∃ g, u'.global_user = GlobalSlot.obj g) ↔
      ∃ accounts, r.globaluserinfo.merged = some accounts ∧
        ∃ a ∈ accounts, a.wiki = "commonswiki" := by
  obtain ⟨rec, rest, t, -, -, -, -, -, -, -, -, hdisj⟩ := load_data_ok_shape u r u' h
  rcases hdisj with ⟨hg, accounts, hacc, hobj⟩ | ⟨hg, hnot⟩
  · exact ⟨fun _ => (data_is_global_iff _).mp hg, fun _ => ⟨_, hobj⟩⟩
  · constructor
    · rintro ⟨g, hgl⟩
      rw [hnot] at hgl
      cases hgl
    · intro hex
      have htrue : User.data_is_global r.globaluserinfo = true :=
        (data_is_global_iff _).mpr hex
      rw [hg] at htrue
      cases htrue

/-- C4 witness: the fixture response `rFed` (valid account, merged on the
anchor site) resolves to a profile marked federated. -/
theorem C4_witness : ∃ g, (resolvedOf "Fed").global_user = GlobalSlot.obj g :=
  (C4_federation_iff { username := "Fed" } rFed (resolvedOf "Fed") rfl).mpr
    ⟨[⟨"enwiki", "https://en"⟩, ⟨"commonswiki", "https://commons"⟩], rfl,
      ⟨"commonswiki", "https://commons"⟩, by decide, rfl⟩

/-! ## Claim C2 -/

/-- Fixture: per-member-site responses for the C2 counterexample — each
member site does report group roles and a first contribution. -/
def siteC2 : String → SiteOutcome := fun url =>
  if url = "https://commons" then .siteResponse { users := [["sysop"]], usercontribs := [3] }
  else .siteResponse { users := [["rollbacker"]], usercontribs := [8] }

/-- Fixture: environment for the C2 counterexample. -/
def envC2 : Env :=
  { sectionText := fun _ => [], lookup := fun _ => .response rFed
    siteQuery := siteC2, parseDate := fun _ => none }

/-- C2 counterexample: for a confirmed-federated account, `load_data`
returns with the `GlobalUser`'s union-of-groups and earliest-first-edit
fields still absent (`None`), even though every member site reports group
roles and a first contribution — running the (never invoked)
`GlobalUser.load_data` on the same data would populate them.  So the
profile is not "fully populated from every member site" when `loadLocal`
returns. -/
theorem C2_eager_merge_cex :
    User.load_data_api envC2 { username := "Dana" } = .ok (resolvedOf "Dana") ∧
    (resolvedOf "Dana").global_user = GlobalSlot.obj (globalProfileOf "Dana") ∧
    (globalProfileOf "Dana").groups = none ∧
    (globalProfileOf "Dana").first_edit = none ∧
    envC2.siteQuery "https://commons"
      = .siteResponse { users := [["sysop"]], usercontribs := [3] } ∧
    GlobalUser.load_data envC2.siteQuery (globalProfileOf "Dana")
      = .ok { globalProfileOf "Dana" with
              groups := some ["rollbacker", "sysop"], first_edit := some 3 } :=
  ⟨rfl, rfl, rfl, rfl, rfl, rfl⟩

/-- C2 (amended): when `load_data` succeeds on a federated account, the
attached `GlobalUser` is built from the federation metadata only — its
union-of-groups and earliest-first-edit fields are absent, because the
per-site merge `GlobalUser.load_data` is never invoked (its call is
commented out in `User.load_data`). -/
theorem C2_merge_not_invoked (u : User) (r : UserQueryResponse) (u' : User) (g : GlobalUser)
    (h : User.load_data u r = .ok u') (hg : u'.global_user = GlobalSlot.obj g) :
    g.groups = none ∧ g.first_edit = none := by
  obtain ⟨rec, rest, t, -, -, -, -, -, -, -, -, hdisj⟩ := load_data_ok_shape u r u' h
  rcases hdisj with ⟨-, accounts, -, hobj⟩ | ⟨-, hnot⟩
  · rw [hobj] at hg
    injection hg with hg
    rw [← hg]
    exact ⟨rfl, rfl⟩
  · rw [hnot] at hg
    cases hg

/-- C2 witness: concrete instantiation of `C2_merge_not_invoked` at the
fixture response. -/
theorem C2_witness :
    (globalProfileOf "Dana").groups = none ∧ (globalProfileOf "Dana").first_edit = none :=
  C2_merge_not_invoked { username := "Dana" } rFed (resolvedOf "Dana")
    (globalProfileOf "Dana") rfl rfl

/-! ## Claim C8 -/

/-- C8: the claim is right and the code is wrong.  For an existing, valid
account with zero local contributions, `User.load_data` evaluates
`data['usercontribs'][0]` without a length guard and raises IndexError
(re-raised by the final `except` block) instead of succeeding with
`first_edit` absent.  When contributions exist, `first_edit` is the head
of the `usercontribs` list, i.e. the earliest local contribution
(`ucdir='newer'`). -/
theorem C8_zero_contribs :
    User.load_data { username := "Newbie" }
        { users := [{ groups := ["user"], editcount := 7 }], usercontribs := [] }
      = .error .indexError ∧
    (User.load_data { username := "Newbie" }
        { users := [{ groups := ["user"], editcount := 7 }], usercontribs := [5, 9] }).map
      User.first_edit = .ok (some 5) :=
  ⟨rfl, rfl⟩

/-! ## Claim C9 -/

/-- Fixture: environment for the C9 scenario — a line whose author
resolves to a valid federated account. -/
def envC9 : Env :=
  { sectionText := fun _ => [], lookup := fun _ => .response rFed
    siteQuery := fun _ => .siteFail, parseDate := fun _ => some 100 }

/-- Fixture: the vote built by `from_line` in the C9 scenario. -/
def vC9 : Vote :=
  { section_label := "Support", text := "#Support [[User:Carol|C]] x"
    user := .obj (resolvedOf "Carol"), datetime := some 100 }

/-- Fixture: the state of that vote after one `to_dict` call: the `user`
attribute now holds the dictionary produced by `User.to_dict`, whose
`global_user` entry in turn holds the dictionary produced by
`GlobalUser.to_dict` with `wikis`/`wiki_urls` deleted. -/
def vC9dict : Vote :=
  { vC9 with
    user := .asDict { resolvedOf "Carol" with
      global_user := .asDict { globalProfileOf "Carol" with
        wikis := none, wiki_urls := none } } }

/-- C9: the claim is right and the code is wrong.  `to_dict` returns
`self.__dict__` itself after reassigning its `user` entry, so serializing
a Vote (directly or via `str`) mutates it: the `user` field changes from
the `User` object to a plain dictionary, and a second `to_dict` call
raises AttributeError.  Votes are therefore not immutable after
creation. -/
theorem C9_to_dict_mutates :
    Vote.from_line envC9 "#Support [[User:Carol|C]] x" "Support" = .ok vC9 ∧
    Vote.to_dict vC9 = .ok vC9dict ∧
    vC9dict.user ≠ vC9.user ∧
    Vote.to_dict vC9dict = .error .attributeError :=
  ⟨rfl, rfl, by decide, rfl⟩

/-! ## Lemmas about the extraction loops -/

/-- With no limit, the inner loop yields the successful `from_line`
results of its lines in order, advances the counter by the number of
lines, and never stops early. -/
lemma processLines_none (env : Env) (lbl : String) :
    ∀ (lines : List String) (i : Nat),
      processLines env lbl none i lines
        = (lines.filterMap (fun line => (Vote.from_line env line lbl).toOption),
           i + lines.length, false) := by
  intro lines
  induction lines with
  | nil => intro i; simp [processLines]
  | cons l ls ih =>
    intro i
    simp only [processLines]
    rw [if_neg (by simp)]
    rw [ih (i + 1)]
    cases hf : Vote.from_line env l lbl with
    | ok v =>
      simp [List.filterMap_cons, hf, Except.toOption]
      omega
    | error e =>
      simp [List.filterMap_cons, hf, Except.toOption]
      omega

/-- With no section filter and no limit, the outer loop concatenates the
per-section vote lists in registry order and fetches every section. -/
lemma processSections_none (env : Env) :
    ∀ (secs : List (String × Nat)) (i : Nat),
      processSections env none none i secs
        = (secs.flatMap (sectionVotes env), secs.map Prod.snd) := by
  intro secs
  induction secs with
  | nil => intro i; rfl
  | cons s rest ih =>
    intro i
    obtain ⟨lbl, id⟩ := s
    simp only [processSections, skipSection, if_false, Bool.false_eq_true]
    rw [processLines_none]
    simp only []
    rw [ih]
    simp [sectionVotes, List.flatMap_cons]

/-- With limit `N` and a counter `i < N`, and when no line's resolution
raises, the inner loop yields `min (N - i) |lines|` votes, advances the
counter accordingly, and stops exactly when the remaining quota fits in
the line list. -/
lemma processLines_limit (env : Env) (lbl : String) (N : Nat)
    (hok : ∀ line lbl', ∃ v, Vote.from_line env line lbl' = .ok v) :
    ∀ (lines : List String) (i : Nat), i < N →
      ∃ vs : List Vote, vs.length = min (N - i) lines.length ∧
        processLines env lbl (some N) i lines
          = (vs, i + min (N - i) lines.length, decide (N - i ≤ lines.length)) := by
  intro lines
  induction lines with
  | nil =>
    intro i hi
    have hno : ¬ (N - i ≤ 0) := by omega
    refine ⟨[], by simp, ?_⟩
    simp [processLines, hno]
  | cons l ls ih =>
    intro i hi
    obtain ⟨v, hv⟩ := hok l lbl
    by_cases hN : N = i + 1
    · refine ⟨[v], ?_, ?_⟩
      · simp only [List.length_cons, List.length_nil]
        omega
      · simp only [processLines, hv]
        rw [if_pos (by rw [hN])]
        have h2 : min (N - i) (l :: ls).length = 1 := by
          simp only [List.length_cons]
          omega
        have h3 : decide (N - i ≤ (l :: ls).length) = true :=
          decide_eq_true (by simp only [List.length_cons]; omega)
        rw [h2, h3]
    · have hi' : i + 1 < N := by omega
      obtain ⟨vs, hlen, heq⟩ := ih (i + 1) hi'
      refine ⟨v :: vs, ?_, ?_⟩
      · simp only [List.length_cons, hlen]
        omega
      · simp only [processLines, hv]
        rw [if_neg (by simpa using hN)]
        rw [heq]
        have e1 : i + 1 + min (N - (i + 1)) ls.length = i + min (N - i) (l :: ls).length := by
          simp only [List.length_cons]
          omega
        have e2 : decide (N - (i + 1) ≤ ls.length) = decide (N - i ≤ (l :: ls).length) := by
          refine decide_eq_decide.mpr ?_
          simp only [List.length_cons]
          omega
        rw [e1, e2]
        rfl

/-- With limit `N` (counter `i < N`, no resolution errors, no section
filter), the outer loop yields `min (N - i)` of the total candidate count
and fetches exactly the minimal prefix of sections needed. -/
lemma processSections_limit (env : Env) (N : Nat)
    (hok : ∀ line lbl', ∃ v, Vote.from_line env line lbl' = .ok v) :
    ∀ (secs : List (String × Nat)) (i : Nat), i < N →
      ∃ out : List Vote, out.length = min (N - i) (totalCandidates env secs) ∧
        processSections env none (some N) i secs
          = (out, minimalFetch env (N - i) secs) := by
  intro secs
  induction secs with
  | nil =>
    intro i hi
    refine ⟨[], by simp [totalCandidates], ?_⟩
    simp [processSections, minimalFetch]
  | cons s rest ih =>
    intro i hi
    obtain ⟨lbl, id⟩ := s
    obtain ⟨vs, hvslen, heq⟩ :=
      processLines_limit env lbl N hok (Vote.filter_vote_lines (env.sectionText id)) i hi
    have htot : totalCandidates env ((lbl, id) :: rest)
        = numCandidates env id + totalCandidates env rest := by
      simp [totalCandidates]
    have hnum : (Vote.filter_vote_lines (env.sectionText id)).length = numCandidates env id :=
      rfl
    rw [hnum] at hvslen heq
    by_cases hfit : N - i ≤ numCandidates env id
    · refine ⟨vs, ?_, ?_⟩
      · rw [hvslen, htot]
        omega
      · simp only [processSections, skipSection, if_false, Bool.false_eq_true, heq]
        rw [if_pos (by exact decide_eq_true hfit)]
        rw [show minimalFetch env (N - i) ((lbl, id) :: rest) = [id] from by
          simp [minimalFetch, hfit]]
    · have hmin : min (N - i) (numCandidates env id) = numCandidates env id := by omega
      have hi2 : i + numCandidates env id < N := by omega
      obtain ⟨out, houtlen, hout⟩ := ih (i + numCandidates env id) hi2
      refine ⟨vs ++ out, ?_, ?_⟩
      · rw [List.length_append, hvslen, houtlen, htot, hmin]
        omega
      · simp only [processSections, skipSection, if_false, Bool.false_eq_true, heq]
        rw [if_neg (by simp [hfit])]
        rw [hmin, hout]
        have e3 : N - (i + numCandidates env id) = N - i - numCandidates env id := by omega
        rw [e3]
        rw [show minimalFetch env (N - i) ((lbl, id) :: rest)
              = id :: minimalFetch env (N - i - numCandidates env id) rest from by
          simp [minimalFetch, hfit]]

/-! ## Claim C3 -/

/-- Fixture: environment for the C3 counterexample, one section with one
candidate line, no signatures (so resolution never runs). -/
def envC3 : Env :=
  { sectionText := fun _ => ["#only"], lookup := fun _ => .fail
    siteQuery := fun _ => .siteFail, parseDate := fun _ => none }

/-- Fixture: page for the C3 counterexample. -/
def pageC3 : VotePage :=
  { page := some "P", sections := VotePage.create_ordered_dict [("S", 1)] }

/-- C3 counterexample: with `limit = 0` the extraction does not return
`min(0, total) = 0` votes — the counter equality `i == limit` is checked
only after the first increment, so a limit of `0` never matches and every
vote is yielded. -/
theorem C3_cex :
    (pageC3.get_votes envC3 none (some 0)).1.length = 1 ∧
    min 0 (totalCandidates envC3 pageC3.sections) = 0 := ⟨rfl, rfl⟩

/-- C3 (amended): for every limit `N ≥ 1` and every page, provided no
candidate line's resolution raises (an exception from `from_line` is
swallowed by `get_votes` and silently drops that line while still counting
it toward the limit), extraction with `limit = N` yields exactly
`min N (total candidate lines)` votes and fetches exactly the minimal
prefix of sections needed to reach the limit — no section entirely beyond
the limit is fetched. -/
theorem C3_limit (env : Env) (page : VotePage) (N : Nat) (hN : 1 ≤ N)
    (hok : ∀ line lbl, ∃ v, Vote.from_line env line lbl = .ok v) :
    (page.get_votes env none (some N)).1.length
        = min N (totalCandidates env page.sections) ∧
    (page.get_votes env none (some N)).2 = minimalFetch env N page.sections := by
  obtain ⟨out, hlen, heq⟩ := processSections_limit env N hok page.sections 0 (by omega)
  rw [Nat.sub_zero] at hlen heq
  constructor
  · show (processSections env none (some N) 0 page.sections).1.length = _
    rw [heq]
    exact hlen
  · show (processSections env none (some N) 0 page.sections).2 = _
    rw [heq]

/-- Fixture: environment for the C3 witness — two sections with two and
one candidate lines, every lookup answering with a missing-user record so
that `from_line` always succeeds. -/
def envC3w : Env :=
  { sectionText := fun id => if id = 1 then ["#a", "#b"] else ["#c"]
    lookup := fun _ => .response { users := [{ missing := true }] }
    siteQuery := fun _ => .siteFail, parseDate := fun _ => none }

/-- Fixture: page for the C3 witness. -/
def pageC3w : VotePage :=
  { page := some "P", sections := VotePage.create_ordered_dict [("S", 1), ("T", 2)] }

/-- C3 witness: with `N = 1` on a three-candidate page, extraction yields
one vote and fetches only the first section. -/
theorem C3_witness :
    (pageC3w.get_votes envC3w none (some 1)).1.length
        = min 1 (totalCandidates envC3w pageC3w.sections) ∧
    (pageC3w.get_votes envC3w none (some 1)).2 = minimalFetch envC3w 1 pageC3w.sections :=
  C3_limit envC3w pageC3w 1 (by decide) (by
    intro line lbl
    cases h : Vote.parse_username line.data with
    | none =>
      exact ⟨{ section_label := lbl, text := line, user := .noneV, datetime := none },
        by simp [Vote.from_line, Vote.parse_datetime, h, envC3w]⟩
    | some uname =>
      exact ⟨{ section_label := lbl, text := line, user := .noneV, datetime := none },
        by simp [Vote.from_line, Vote.parse_datetime, h, envC3w,
          User.load_data_api, User.load_data]⟩)

/-! ## Claim C1 -/

/-- Fixture: environment for the C1 counterexample — the single candidate
line carries a signature, and the lookup fails with a transport error. -/
def envC1 : Env :=
  { sectionText := fun _ => ["#Oppose --[[User:Eve]] sig"], lookup := fun _ => .fail
    siteQuery := fun _ => .siteFail, parseDate := fun _ => none }

/-- Fixture: page for the C1 counterexample. -/
def pageC1 : VotePage :=
  { page := some "RFC", sections := VotePage.create_ordered_dict [("Support", 1)] }

/-- C1 counterexample: when the lookup raises a transport error,
`from_line` re-raises and `get_votes` suppresses the exception
(`try: yield ...; except: pass`), so the candidate line is discarded: the
page has one candidate vote line but extraction emits no Vote at all —
not a Vote with an absent author profile. -/
theorem C1_cex :
    (pageC1.get_votes envC1 none none).1 = [] ∧
    Vote.filter_vote_lines (envC1.sectionText 1) = ["#Oppose --[[User:Eve]] sig"] :=
  ⟨rfl, rfl⟩

/-- C1 (amended): only the unknown/invalid-account failure is recovered:
when the lookup answers with a record flagged missing or invalid,
`from_line` catches `NoSuchUserException` and still returns the Vote with
its author-profile field absent, its text and parsed timestamp intact.
(When the lookup raises any other error, `from_line` re-raises and
`get_votes` drops the line from the output, as `C1_cex` shows.) -/
theorem C1_unknown_user_recovered (env : Env) (line lbl : String) (uname : List Char)
    (r : UserQueryResponse) (rec : LocalUserRecord) (rest : List LocalUserRecord)
    (hparse : Vote.parse_username line.data = some uname)
    (hlookup : env.lookup (String.mk uname) = .response r)
    (husers : r.users = rec :: rest)
    (hmv : (rec.missing || rec.invalid) = true) :
    Vote.from_line env line lbl
      = .ok { section_label := lbl, text := line, user := .noneV,
              datetime := env.parseDate line } := by
  simp only [Vote.from_line, Vote.parse_datetime, hparse, User.load_data_api, hlookup,
    User.load_data, husers, List.head?_cons, hmv, if_true]

/-- Fixture: environment for the C1 witness (every lookup answers with a
missing-user record). -/
def envGhost : Env :=
  { sectionText := fun _ => [], lookup := fun _ => .response { users := [{ missing := true }] }
    siteQuery := fun _ => .siteFail, parseDate := fun _ => none }

/-- C1 witness: a line signed by a nonexistent user still becomes a Vote
with `user` absent. -/
theorem C1_witness :
    Vote.from_line envGhost "#x --[[User:Ghost]]" "S"
      = .ok { section_label := "S", text := "#x --[[User:Ghost]]", user := .noneV,
              datetime := envGhost.parseDate "#x --[[User:Ghost]]" } :=
  C1_unknown_user_recovered envGhost "#x --[[User:Ghost]]" "S" ("Ghost".data)
    { users := [{ missing := true }] } { missing := true } [] rfl rfl rfl rfl

/-! ## Claim C5 -/

/-- Fixture: environment for the C5 counterexample. -/
def envC5 : Env :=
  { sectionText := fun id => if id = 1 then ["#alpha"] else ["#beta"]
    lookup := fun _ => .fail, siteQuery := fun _ => .siteFail, parseDate := fun _ => none }

/-- Fixture: page for the C5 counterexample, whose configured label→id
list is ordered `B` before `A` while the ids order `A` before `B`. -/
def pageC5 : VotePage :=
  { page := some "P", sections := VotePage.create_ordered_dict [("B", 2), ("A", 1)] }

/-- C5 counterexample: with the configured mapping listing section `B`
(id 2) before section `A` (id 1), extraction emits the `A` vote first:
the output follows ascending section id (`create_ordered_dict` sorts the
registry by id), not the configured mapping's own order. -/
theorem C5_cex :
    (pageC5.get_votes envC5 none none).1.map Vote.section_label = ["A", "B"] ∧
    [("B", 2), ("A", 1)].map Prod.fst = ["B", "A"] ∧
    (["A", "B"] : List String) ≠ ["B", "A"] := ⟨rfl, rfl, by decide⟩

/-- C5 (amended): the sequence of Votes is ordered by ascending section id
— `create_ordered_dict` stably sorts the configured label→id pairs by id,
and extraction concatenates, in that sorted order, each section's
successful votes in line order.  Timestamps play no role in the order. -/
theorem C5_order (env : Env) (p : Option String) (rev : Option Nat)
    (secs : List (String × Nat)) :
    (VotePage.get_votes ⟨p, rev, VotePage.create_ordered_dict secs⟩ env none none).1
        = (VotePage.create_ordered_dict secs).flatMap (sectionVotes env) ∧
    (VotePage.create_ordered_dict secs).Pairwise keyLE ∧
    (VotePage.create_ordered_dict secs).Perm secs := by
  refine ⟨?_, ?_, ?_⟩
  · have h := processSections_none env (VotePage.create_ordered_dict secs) 0
    simpa [VotePage.get_votes] using congrArg Prod.fst h
  · exact List.sorted_insertionSort keyLE secs
  · exact List.perm_insertionSort keyLE secs

end RfcStats
